import Mathlib

/-!
Verification of `src/main.cc` of the repository `everard/template-main`.

The translation unit imports three modules (`rose.filesystem`, `rose.random`,
`rose.span`) and defines a single function:

    int
    main() {
        return EXIT_SUCCESS;
    }

We embed the program shallowly: main's body is a list of statements executed
by a small interpreter that threads an effect trace; the host environment
(arguments, environment variables, availability of filesystem, network and
randomness) is a record that the program never consults, because `main` is
declared with no parameters and its body reads nothing.
-/

/-- The value of the C standard-library macro `EXIT_SUCCESS`, which is `0`
on standard C++ implementations. -/
def EXIT_SUCCESS : Int := 0

/-- Observable side effects a statement could produce.  None of these is
produced by the program, but the type is needed to state that fact. -/
inductive Effect
  | fileRead
  | fileWrite
  | netAccess
  | stdoutWrite
  | stderrWrite
  deriving DecidableEq, Repr

/-- The three modules imported by the translation unit. -/
inductive ModuleName
  | filesystem
  | random
  | span
  deriving DecidableEq, Repr

/-- The import declarations of `src/main.cc` (lines 8-10):
`import rose.filesystem; import rose.random; import rose.span;`. -/
def importedModules : List ModuleName :=
  [ModuleName.filesystem, ModuleName.random, ModuleName.span]

/-- Statements of the fragment of C++ needed to express main's body.
`ret v` is `return v;` for an integer constant `v`.  `emit m e` stands for an
effect-producing call into module `m` (or into no module); no such statement
occurs in main's body, but the constructor is needed so that "the body
contains no effectful statement" is a statement about the source, not a
property true of every body. -/
inductive Stmt
  | ret (v : Int)
  | emit (m : Option ModuleName) (e : Effect)
  deriving DecidableEq, Repr

/-- The body of `main` (lines 16-19 of `src/main.cc`): the single statement
`return EXIT_SUCCESS;`. -/
def mainBody : List Stmt := [Stmt.ret EXIT_SUCCESS]

/-- The modules whose symbols a statement calls into. -/
def stmtModuleUses : Stmt → List ModuleName
  | Stmt.ret _ => []
  | Stmt.emit m _ => m.toList

/-- All module symbols used by the executable statements of a body. -/
def modulesUsed (body : List Stmt) : List ModuleName :=
  (body.map stmtModuleUses).flatten

/-- Result of a process run: either termination with an exit status, or an
error condition.  The `error` constructor exists only so that "no error is
ever produced" is expressible. -/
inductive Outcome
  | exited (status : Int)
  | error (msg : String)
  deriving DecidableEq, Repr

/-- Whether an outcome is an error condition. -/
def Outcome.isError : Outcome → Bool
  | Outcome.exited _ => false
  | Outcome.error _ => true

/-- Execute a statement list, threading the trace of effects produced so far.
A `return v;` statement terminates the process with status `v`; flowing off
the end of `main` returns `0` (C++ [basic.start.main]/5). -/
def exec : List Stmt → List Effect → Outcome × List Effect
  | [], tr => (Outcome.exited 0, tr)
  | Stmt.ret v :: _, tr => (Outcome.exited v, tr)
  | Stmt.emit _ e :: rest, tr => exec rest (tr ++ [e])

/-- The host environment of one invocation: command-line arguments,
environment variables, and availability of the filesystem, the network and a
randomness source.  `main()` is declared with no parameters and its body
consults none of these. -/
structure Host where
  args : List String
  envVars : List (String × String)
  fsReadable : Bool
  netAvailable : Bool
  randomSeed : Nat
  deriving DecidableEq, Repr

/-- One full invocation of the program on a host: the host starts the
process, main's body runs with an empty effect trace.  The host is not
consulted, because `main` takes no parameters and reads no environment
state. -/
def runProcess (_h : Host) : Outcome × List Effect :=
  exec mainBody []

/-- A batch of invocations, one per host, in order. -/
def runMany (hs : List Host) : List (Outcome × List Effect) :=
  hs.map runProcess

/-- A translation unit: its import declarations and the body of `main`. -/
structure Program where
  imports : List ModuleName
  body : List Stmt
  deriving DecidableEq, Repr

/-- The program as written: three imports, body `return EXIT_SUCCESS;`. -/
def originalProgram : Program := ⟨importedModules, mainBody⟩

/-- The program with the three import declarations removed. -/
def strippedProgram : Program := ⟨[], mainBody⟩

/-- Observable behavior of a program: the outcome and effect trace of
executing its body from an empty trace. -/
def observe (p : Program) : Outcome × List Effect :=
  exec p.body []

/-- States of the process: `running rest tr` is a process still executing
with statements `rest` remaining and effects `tr` emitted so far;
`terminated s tr` is a process that has exited with status `s` having
emitted `tr`. -/
inductive ProgState
  | running (rest : List Stmt) (tr : List Effect)
  | terminated (status : Int) (tr : List Effect)
  deriving DecidableEq, Repr

/-- Small-step transition of the process.  Terminated states are fixed. -/
def stepConf : ProgState → ProgState
  | ProgState.running [] tr => ProgState.terminated 0 tr
  | ProgState.running (Stmt.ret v :: _) tr => ProgState.terminated v tr
  | ProgState.running (Stmt.emit _ e :: rest) tr =>
      ProgState.running rest (tr ++ [e])
  | ProgState.terminated s tr => ProgState.terminated s tr

/-- The initial state: main's body about to run, nothing emitted. -/
def initState : ProgState := ProgState.running mainBody []

/-- A state is reachable when some number of steps from the initial state
produces it. -/
def reachable (s : ProgState) : Prop :=
  ∃ n, stepConf^[n] initState = s

/-- Terminated states are fixed points of the step function, for any number
of further steps. -/
theorem stepConf_iterate_terminated (k : Nat) (s : Int) (tr : List Effect) :
    stepConf^[k] (ProgState.terminated s tr) = ProgState.terminated s tr := by
  induction k with
  | zero => rfl
  | succ k ih => rw [Function.iterate_succ_apply, stepConf]; exact ih

/-- Claim C1: every invocation, on any host, terminates with the
conventional success status `EXIT_SUCCESS`; no other exit status is ever
produced. -/
theorem c1_exit_always_success (h : Host) :
    (runProcess h).fst = Outcome.exited EXIT_SUCCESS := rfl

/-- Claim C2: two invocations with any (possibly different) command-line
arguments, other host state equal or not, produce identical results:
arguments are never read. -/
theorem c2_args_irrelevant (a1 a2 : List String) (h1 h2 : Host) :
    runProcess { h1 with args := a1 } = runProcess { h2 with args := a2 } :=
  rfl

/-- Claim C3: the process always terminates: after any positive number of
steps from the initial state it is in the terminal success state. -/
theorem c3_terminates (n : Nat) (hn : 1 ≤ n) :
    stepConf^[n] initState = ProgState.terminated EXIT_SUCCESS [] := by
  obtain ⟨k, rfl⟩ := Nat.exists_eq_add_of_le hn
  rw [Nat.add_comm, Function.iterate_add_apply]
  exact stepConf_iterate_terminated k EXIT_SUCCESS []

/-- Witness for C3 at the concrete step count `1`. -/
theorem c3_terminates_witness :
    stepConf^[1] initState = ProgState.terminated EXIT_SUCCESS [] :=
  c3_terminates 1 (by decide)

/-- Claim C4: no observable side effect occurs: the effect trace of every
invocation is empty. -/
theorem c4_no_effects (h : Host) : (runProcess h).snd = [] := rfl

/-- Claim C5: no error condition is reachable: every invocation yields a
non-error outcome, namely a normal exit. -/
theorem c5_no_error (h : Host) :
    (runProcess h).fst.isError = false ∧
      ∃ s, (runProcess h).fst = Outcome.exited s :=
  ⟨rfl, EXIT_SUCCESS, rfl⟩

/-- Claim C6: running the program any number of times yields the identical
successful, effect-free outcome on every run. -/
theorem c6_idempotent (hs : List Host) :
    runMany hs =
      List.replicate hs.length (Outcome.exited EXIT_SUCCESS, ([] : List Effect)) := by
  induction hs with
  | nil => rfl
  | cons h t ih =>
      rw [runMany, List.map_cons, List.length_cons, List.replicate_succ]
      rw [runMany] at ih
      rw [ih]
      rfl

/-- Claim C7: any two invocations under any host environments — any
environment variables, any availability of filesystem, network or
randomness — produce identical results: no environment state is read. -/
theorem c7_env_irrelevant (h1 h2 : Host) : runProcess h1 = runProcess h2 :=
  rfl

/-- Claim C8: the reachable states are exactly the initial "running" state
and the terminal "terminated with success" state; both are reachable, the
transition out of the initial state is unconditional and immediate, and the
terminal state is fixed. -/
theorem c8_two_state_machine :
    (∀ s, reachable s →
        s = initState ∨ s = ProgState.terminated EXIT_SUCCESS []) ∧
      reachable initState ∧
      reachable (ProgState.terminated EXIT_SUCCESS []) ∧
      stepConf initState = ProgState.terminated EXIT_SUCCESS [] ∧
      stepConf (ProgState.terminated EXIT_SUCCESS []) =
        ProgState.terminated EXIT_SUCCESS [] := by
  refine ⟨?_, ⟨0, rfl⟩, ⟨1, rfl⟩, rfl, rfl⟩
  rintro s ⟨n, rfl⟩
  cases n with
  | zero => exact Or.inl rfl
  | succ k =>
      right
      rw [Function.iterate_succ_apply]
      exact stepConf_iterate_terminated k EXIT_SUCCESS []

/-- Witness for C8: its characterization applied to the concrete reachable
state reached after one step. -/
theorem c8_two_state_machine_witness :
    ProgState.terminated EXIT_SUCCESS [] = initState ∨
      ProgState.terminated EXIT_SUCCESS [] =
        ProgState.terminated EXIT_SUCCESS [] :=
  c8_two_state_machine.1 (ProgState.terminated EXIT_SUCCESS []) ⟨1, rfl⟩

/-- Claim C9: no symbol of the three imported modules is used by any
executable statement, and the program with the imports removed is
observationally equivalent to the original: same outcome, same (empty)
effects. -/
theorem c9_imports_unused :
    modulesUsed originalProgram.body = [] ∧
      observe originalProgram = observe strippedProgram ∧
      observe originalProgram = (Outcome.exited EXIT_SUCCESS, []) :=
  ⟨rfl, rfl, rfl⟩

/-- Claim C10: the exit status is exactly the value of `EXIT_SUCCESS`,
which is the concrete integer `0`; main's body is the single statement
returning this constant. -/
theorem c10_exit_success_is_zero :
    EXIT_SUCCESS = (0 : Int) ∧
      mainBody = [Stmt.ret EXIT_SUCCESS] ∧
      ∀ h : Host, (runProcess h).fst = Outcome.exited 0 :=
  ⟨rfl, rfl, fun _ => rfl⟩
